import Mathlib

/-!
Verification development for the atlan-python-samples event handlers.

The effectful calls made against the remote catalog (typedef lookup and
creation, badge upsert, asset fetch) are modelled by an environment of
oracle results: each remote call site is a field holding either the value
the call returns or the exception it raises.  The exception taxonomy
mirrors the pyatlan hierarchy used by the handlers: `NotFoundError` and
`ConflictError` are subclasses of `AtlanException`; `nonAtlan` stands for
any exception outside that hierarchy (which no `except AtlanException`
clause catches).

Numeric scores are modelled as `Int`: every score the scorer computes is a
sum of the integer weightings 0..25, and every stored score was written by
the same scorer, so the Python float arithmetic involved is exact and the
`!=` comparison coincides with integer inequality.
-/

namespace AtlanSamples

/-- Exception kinds raised by catalog calls. `notFound`, `conflict` and
`otherAtlan` are all `AtlanException`s; `nonAtlan` is any exception outside
the pyatlan hierarchy. -/
inductive Exc where
  | notFound
  | conflict
  | otherAtlan
  | nonAtlan
deriving DecidableEq, Repr

/-- Whether the exception is (a subclass of) `AtlanException`. -/
def Exc.isAtlan : Exc → Bool
  | .nonAtlan => false
  | _ => true

/-- Whether the exception is a `ConflictError`. -/
def Exc.isConflict : Exc → Bool
  | .conflict => true
  | _ => false

/-- Whether the exception is a `NotFoundError`. -/
def Exc.isNotFound : Exc → Bool
  | .notFound => true
  | _ => false

/-- Oracle results for the remote calls `_create_cm_if_not_exists` can make,
in the order the code can reach them: the first
`CustomMetadataCache.get_id_for_name`, `client.create_typedef`,
`client.upsert(badge)`, the lookup after a successful creation, and the
lookup inside the `except ConflictError` handler. -/
structure CMEnv where
  lookup1 : Except Exc String
  createTypedef : Except Exc Unit
  badgeUpsert : Except Exc Unit
  lookup2 : Except Exc String
  lookup3 : Except Exc String

/-- Result of a run of `_create_cm_if_not_exists`: `.ok (some id)` when the
function returns an identifier, `.ok none` for the implicit `return None`
after a swallowed failure, `.error e` when an exception propagates to the
caller.  `createCalls` counts invocations of `client.create_typedef`; `logs`
collects the `print` output in order. -/
structure CMResult where
  result : Except Exc (Option String)
  createCalls : Nat
  logs : List String

/-- Body of the inner `try` of `_create_cm_if_not_exists`: create the
typedef, best-effort create the badge (its `AtlanException`s are caught
locally), then look the id up again and return it. -/
def innerTryBody (env : CMEnv) : CMResult :=
  match env.createTypedef with
  | .error e => ⟨.error e, 1, []⟩
  | .ok _ =>
    let badgeLog :=
      match env.badgeUpsert with
      | .ok _ => ["Created DaaP completeness score badge."]
      | .error eb =>
        if eb.isAtlan then ["Unable to create badge over DaaP score."] else []
    let logs := "Created DaaP custom metadata structure." :: badgeLog
    match env.badgeUpsert with
    | .error eb =>
      if eb.isAtlan then
        match env.lookup2 with
        | .ok id => ⟨.ok (some id), 1, logs⟩
        | .error e2 => ⟨.error e2, 1, logs⟩
      else ⟨.error eb, 1, logs⟩
    | .ok _ =>
      match env.lookup2 with
      | .ok id => ⟨.ok (some id), 1, logs⟩
      | .error e2 => ⟨.error e2, 1, logs⟩

/-- `_create_cm_if_not_exists` from `events/lambda_scorer.py`.  The outer
`try` returns the result of the first lookup; on `NotFoundError` it runs
`innerTryBody`, whose `ConflictError` is handled by a second lookup (whose
own `AtlanException` failure is swallowed into `None`), whose other
`AtlanException`s are swallowed into `None`; any other `AtlanException`
from the first lookup is likewise swallowed.  Exceptions outside the
`AtlanException` hierarchy propagate. -/
def createCmIfNotExists (env : CMEnv) : CMResult :=
  match env.lookup1 with
  | .ok id => ⟨.ok (some id), 0, []⟩
  | .error e =>
    if e.isNotFound then
      let inner := innerTryBody env
      match inner.result with
      | .ok r => ⟨.ok r, inner.createCalls, inner.logs⟩
      | .error e2 =>
        if e2.isConflict then
          match env.lookup3 with
          | .ok id => ⟨.ok (some id), inner.createCalls, inner.logs⟩
          | .error e3 =>
            if e3.isAtlan then
              ⟨.ok none, inner.createCalls,
                inner.logs ++
                  ["Unable to look up DaaP custom metadata, even though it should already exist."]⟩
            else ⟨.error e3, inner.createCalls, inner.logs⟩
        else if e2.isAtlan then
          ⟨.ok none, inner.createCalls,
            inner.logs ++ ["Unable to create DaaP custom metadata structure."]⟩
        else ⟨.error e2, inner.createCalls, inner.logs⟩
    else if e.isAtlan then
      ⟨.ok none, 0, ["Unable to look up DaaP custom metadata."]⟩
    else ⟨.error e, 0, []⟩

/-- A call result raises no exception outside the `AtlanException`
hierarchy (i.e. any failure is a catalog error). -/
def catalogErr {α : Type} : Except Exc α → Bool
  | .error e => e.isAtlan
  | .ok _ => true

/-- Every failure the environment can produce is a catalog error
(`AtlanException`), the situation the `except` clauses of the handlers are
written for. -/
def CMEnv.catalogOnly (env : CMEnv) : Bool :=
  catalogErr env.lookup1 && catalogErr env.createTypedef &&
    catalogErr env.badgeUpsert && catalogErr env.lookup2 &&
    catalogErr env.lookup3

/-- `LambdaScorer.validate_prerequisites`: the provisioning result must be
non-`None`, the payload an `AtlanEventPayload` and the asset an `Asset`
(the two `isinstance` checks are the booleans `payloadOk`, `assetOk`). -/
def validatePrerequisites (env : CMEnv) (payloadOk assetOk : Bool) :
    Except Exc Bool :=
  match (createCmIfNotExists env).result with
  | .error e => .error e
  | .ok r => .ok (r.isSome && payloadOk && assetOk)

/-- Oracle results for `create_custom_metadata_structure` in
`custom_metadata/deploy_branded_cm.py`: the name lookup and the typedef
creation. -/
structure DeployEnv where
  lookup : Except Exc String
  createTypedef : Except Exc Unit

/-- Result of `create_custom_metadata_structure`: final outcome plus the
number of `client.create_typedef` calls performed. -/
structure DeployResult where
  result : Except Exc Unit
  createCalls : Nat
deriving Repr

/-- `create_custom_metadata_structure` from
`custom_metadata/deploy_branded_cm.py`: a successful lookup just logs and
returns; only `NotFoundError` triggers creation; any other exception
propagates (there is no `except AtlanException` clause here). -/
def createCustomMetadataStructure (env : DeployEnv) : DeployResult :=
  match env.lookup with
  | .ok _ => ⟨.ok (), 0⟩
  | .error e =>
    if e.isNotFound then
      match env.createTypedef with
      | .ok _ => ⟨.ok (), 1⟩
      | .error e2 => ⟨.error e2, 1⟩
    else ⟨.error e, 0⟩

/-- Certificate statuses used by the handlers. -/
inductive CertificateStatus where
  | DRAFT
  | VERIFIED
  | DEPRECATED
deriving DecidableEq, Repr

/-- `pyatlan.model.structs.StarredDetails`. -/
structure StarredDetails where
  assetStarredBy : String
  assetStarredAt : Int
deriving DecidableEq, Repr

/-- The projection of a pyatlan `Asset` the samples read and write.
`hasDescription`, `hasOwner` and `hasLineage` are the values of the SDK
predicates `has_description` / `has_owner` / `has_lineage` on the asset;
`daapCM` is the "DaaP" custom-metadata dict of the asset (`[]` stands for a
missing or empty dict — both are falsy in the handler code); optional
relationship lists use `[]` for Python `None` or empty (again equally
falsy); `readmeGuid` is the guid of the readme relation when one is attached. -/
structure Asset where
  typeName : String
  name : String
  qualifiedName : String
  hasDescription : Bool
  hasOwner : Bool
  hasLineage : Bool
  certificateStatus : Option CertificateStatus
  certificateStatusMessage : Option String
  assignedTerms : List String
  atlanTags : List String
  seeAlso : List String
  links : List String
  assignedEntities : List String
  readmeGuid : Option String
  daapCM : List (String × Int)
  starredBy : List String
  starredDetailsList : List StarredDetails
  starredCount : Nat
deriving DecidableEq, Repr

/-- `Asset.trim_to_required()`: keep only the identifying fields required
for a modification (type, name, qualified name); every other attribute is
blank (modelled by the empty/absent default of its type). -/
def Asset.trim_to_required (a : Asset) : Asset where
  typeName := a.typeName
  name := a.name
  qualifiedName := a.qualifiedName
  hasDescription := false
  hasOwner := false
  hasLineage := false
  certificateStatus := none
  certificateStatusMessage := none
  assignedTerms := []
  atlanTags := []
  seeAlso := []
  links := []
  assignedEntities := []
  readmeGuid := none
  daapCM := []
  starredBy := []
  starredDetailsList := []
  starredCount := 0

/-- `ENFORCEMENT_MESSAGE` from `events/lambda_enforcer.py`. -/
def ENFORCEMENT_MESSAGE : String :=
  "To be verified, an asset must have a description, at least one owner, and lineage."

namespace LambdaEnforcer

/-- `LambdaEnforcer.calculate_changes`: a VERIFIED asset missing a
description, an owner or lineage is demoted to DRAFT with the fixed
enforcement message on a trimmed copy; otherwise no change is proposed. -/
def calculate_changes (asset : Asset) : List Asset :=
  if asset.certificateStatus = some .VERIFIED then
    if !asset.hasDescription || !asset.hasOwner || !asset.hasLineage then
      let trimmed := asset.trim_to_required
      [{ trimmed with
          certificateStatus := some .DRAFT,
          certificateStatusMessage := some ENFORCEMENT_MESSAGE }]
    else []
  else []

end LambdaEnforcer

/-- `CM_DAAP` from `events/lambda_scorer.py`. -/
def CM_DAAP : String := "DaaP"

/-- `CM_ATTR_DAAP_SCORE` from `events/lambda_scorer.py`. -/
def CM_ATTR_DAAP_SCORE : String := "Score"

/-- Environment of the remote readme fetch of the scorer:
`readmeDescription g` is the `description` of the `Readme` asset
`client.get_asset_by_guid(g, asset_type=Readme)` returns. -/
structure ScorerEnv where
  readmeDescription : String → Option String

/-- Whether one character list is an initial segment of another
(structurally recursive so that concrete instances evaluate). -/
def listPrefixEq : List Char → List Char → Bool
  | [], _ => true
  | _ :: _, [] => false
  | a :: as, b :: bs => a == b && listPrefixEq as bs

/-- Python `str.startswith`: `strStartsWith s p` holds when `p` is an
initial segment of `s`. -/
def strStartsWith (s p : String) : Bool := listPrefixEq p.data s.data

/-- The `s_readme` weighting computed from a fetched readme description;
Python falsiness of `None` and `""` both land in the 0 branch. -/
def readmeScoreOf : Option String → Int
  | none => 0
  | some s =>
    if s.length > 1000 then 20
    else if s.length > 500 then 10
    else if s.length > 100 then 5
    else 0

/-- The readme description the scorer fetches for an asset: only when a
readme relation with a truthy guid is attached. -/
def fetchedReadmeDescription (env : ScorerEnv) (a : Asset) : Option String :=
  match a.readmeGuid with
  | some g => if g ≠ "" then env.readmeDescription g else none
  | none => none

namespace LambdaScorer

/-- The score retrieval in `LambdaScorer.has_changes`: the default `-1.0`
survives when the "DaaP" dict is falsy; a present dict yields
`dict.get("Score")`, which is `none` when the key is missing (Python
`None`). -/
def scoreOf (a : Asset) : Option Int :=
  if a.daapCM.isEmpty then some (-1)
  else a.daapCM.lookup CM_ATTR_DAAP_SCORE

/-- `LambdaScorer.has_changes`: `score_original != score_modified`. -/
def has_changes (original modified : Asset) : Bool :=
  decide (scoreOf original ≠ scoreOf modified)

/-- The score `LambdaScorer.calculate_changes` computes.  `score` starts at
`1.0`; an `AtlasGlossaryTerm` gets the term weightings (description,
related terms, links, related assets, certificate, readme); an asset whose
`type_name` does not start with `"AtlasGlossary"` gets the generic
weightings; glossaries and categories keep the initial `1.0`. -/
def computeScore (env : ScorerEnv) (asset : Asset) : Int :=
  if asset.typeName = "AtlasGlossaryTerm" then
    let sDescription : Int := if asset.hasDescription then 15 else 0
    let sRelatedTerm : Int := if asset.seeAlso.isEmpty then 0 else 10
    let sLinks : Int := if asset.links.isEmpty then 0 else 10
    let sRelatedAsset : Int := if asset.assignedEntities.isEmpty then 0 else 20
    let sCertificate : Int :=
      match asset.certificateStatus with
      | some .DRAFT => 15
      | some .VERIFIED => 25
      | _ => 0
    let sReadme : Int := readmeScoreOf (fetchedReadmeDescription env asset)
    sDescription + sRelatedTerm + sLinks + sRelatedAsset + sCertificate + sReadme
  else if !(strStartsWith asset.typeName "AtlasGlossary") then
    let sDescription : Int := if asset.hasDescription then 15 else 0
    let sOwner : Int := if asset.hasOwner then 20 else 0
    let sTerms : Int := if asset.assignedTerms.isEmpty then 0 else 20
    let sTags : Int := if asset.atlanTags.isEmpty then 0 else 20
    let sLineage : Int := if asset.hasLineage then 20 else 0
    sDescription + sOwner + sLineage + sTerms + sTags
  else 1

/-- `LambdaScorer.calculate_changes`: compute the score, and when it is
`>= 0` build `revised = asset.trim_to_required()` carrying exactly the
"DaaP" `Score` attribute, returned only when `has_changes(asset, revised)`
detects a difference against the stored score. -/
def calculate_changes (env : ScorerEnv) (asset : Asset) : List Asset :=
  let score := computeScore env asset
  if score ≥ 0 then
    let revised :=
      { asset.trim_to_required with daapCM := [(CM_ATTR_DAAP_SCORE, score)] }
    if has_changes asset revised then [revised] else []
  else []

end LambdaScorer

/-- The loop of `star_asset` in `search/and_star_assets.py`: walk the
usernames; a user not yet in `starred_by` is added to the set, increments
the count and appends a `StarredDetails` entry stamped `now`. -/
def starLoop (now : Int) (usernames : List String) (sb : List String)
    (cnt : Nat) (sdl : List StarredDetails) :
    List String × Nat × List StarredDetails :=
  match usernames with
  | [] => (sb, cnt, sdl)
  | u :: rest =>
    if u ∈ sb then starLoop now rest sb cnt sdl
    else starLoop now rest (sb ++ [u]) (cnt + 1) (sdl ++ [⟨u, now⟩])

/-- `star_asset` from `search/and_star_assets.py`, returning the `to_update`
asset passed to `client.save`: starting from the starred details of the asset
list (count initialised to its length) and starred-by set, run the loop,
then set the three starred fields on a trimmed copy. -/
def star_asset (asset : Asset) (usernames : List String) (now : Int) :
    Asset :=
  let r := starLoop now usernames asset.starredBy
    asset.starredDetailsList.length asset.starredDetailsList
  { asset.trim_to_required with
      starredBy := r.1,
      starredCount := r.2.1,
      starredDetailsList := r.2.2 }

/-- Reconciliation outcome of one event. -/
inductive Outcome where
  | noop
  | updated
  | failed
deriving DecidableEq, Repr

/-- Modelled from the spec: the pyatlan `process_event` driver
(the reconcile loop of `AtlanEventHandler`) is not part of this repository, so
its outcome mapping is taken from §4.1 of the spec — failed prerequisites
give `no-op` with no write-back; an empty change list gives `no-op` with no
write-back; otherwise each change is written back and the outcome is
`updated`.  The second component counts write-back (save/upsert) calls. -/
def reconcileOutcome (prereqsOk : Bool) (changes : List Asset) :
    Outcome × Nat :=
  if !prereqsOk then (.noop, 0)
  else
    match changes with
    | [] => (.noop, 0)
    | cs => (.updated, cs.length)

/-- Concrete environment: first lookup misses, creation conflicts, and the
lookup inside the conflict handler fails with a catalog error. -/
def conflictLookupFails : CMEnv :=
  ⟨.error .notFound, .error .conflict, .ok (), .ok "cmid", .error .otherAtlan⟩

/-- Concrete environment: first lookup misses, creation conflicts, and the
lookup inside the conflict handler succeeds. -/
def conflictLookupOk : CMEnv :=
  ⟨.error .notFound, .error .conflict, .ok (), .ok "cmid", .ok "cmid"⟩

/-- Claim C1 (counterexample): with the first lookup missing, creation
raising `ConflictError`, and the conflict-handler lookup failing with a
catalog error, `_create_cm_if_not_exists` does not propagate that failure:
it swallows it and returns `None` (`.ok none`), contradicting the claim
that the failure of the second lookup is propagated to the caller. -/
theorem conflict_second_lookup_swallowed :
    conflictLookupFails.lookup3 = .error .otherAtlan
  ∧ Exc.otherAtlan.isAtlan = true
  ∧ (createCmIfNotExists conflictLookupFails).result = .ok none
  ∧ (createCmIfNotExists conflictLookupFails).logs =
      ["Unable to look up DaaP custom metadata, even though it should already exist."] :=
  ⟨rfl, rfl, rfl, rfl⟩

/-- Claim C1 (amended): whenever creation fails with a conflict signal, the
operation re-runs the lookup by name and returns its result; if that second
lookup itself fails with a catalog error, the failure is handled locally
(logged) and the operation reports failure by returning no identifier,
rather than propagating the exception. -/
theorem conflict_rerun_lookup_returns (env : CMEnv)
    (h1 : env.lookup1 = .error .notFound)
    (h2 : env.createTypedef = .error .conflict) :
    (∀ id, env.lookup3 = .ok id →
       (createCmIfNotExists env).result = .ok (some id))
  ∧ (∀ e, env.lookup3 = .error e → e.isAtlan = true →
       (createCmIfNotExists env).result = .ok none) := by
  constructor
  · intro id h3
    simp [createCmIfNotExists, innerTryBody, h1, h2, h3, Exc.isNotFound,
      Exc.isConflict]
  · intro e h3 he
    simp [createCmIfNotExists, innerTryBody, h1, h2, h3, he, Exc.isNotFound,
      Exc.isConflict]

/-- Witness for the amended claim C1 at a concrete environment. -/
theorem conflict_rerun_lookup_returns_witness :
    (createCmIfNotExists conflictLookupOk).result = .ok (some "cmid") :=
  (conflict_rerun_lookup_returns conflictLookupOk rfl rfl).1 "cmid" rfl

/-- Claim C5: after the schema definition has been created successfully, a
catalog failure of the badge upsert is caught locally: the function logs
the badge failure and still returns the identifier of the schema. -/
theorem badge_failure_best_effort (env : CMEnv) (id : String) (e : Exc)
    (h1 : env.lookup1 = .error .notFound)
    (h2 : env.createTypedef = .ok ())
    (h3 : env.badgeUpsert = .error e)
    (he : e.isAtlan = true)
    (h4 : env.lookup2 = .ok id) :
    (createCmIfNotExists env).result = .ok (some id)
  ∧ (createCmIfNotExists env).logs =
      ["Created DaaP custom metadata structure.",
       "Unable to create badge over DaaP score."] := by
  constructor <;>
    simp [createCmIfNotExists, innerTryBody, h1, h2, h3, h4, he,
      Exc.isNotFound]

/-- Witness for claim C5 at a concrete environment. -/
theorem badge_failure_best_effort_witness :
    (createCmIfNotExists
        ⟨.error .notFound, .ok (), .error .otherAtlan, .ok "cmid",
          .ok "cmid"⟩).result = .ok (some "cmid") :=
  (badge_failure_best_effort
    ⟨.error .notFound, .ok (), .error .otherAtlan, .ok "cmid", .ok "cmid"⟩
    "cmid" .otherAtlan rfl rfl rfl rfl rfl).1

/-- Claim C6: a non-conflict catalog failure during schema creation is
logged and reported as failure by returning no identifier (not by raising),
and `validate_prerequisites` turns that reported failure into `False`. -/
theorem creation_failure_reports_none (env : CMEnv) (p a : Bool)
    (h1 : env.lookup1 = .error .notFound)
    (h2 : env.createTypedef = .error .otherAtlan) :
    (createCmIfNotExists env).result = .ok none
  ∧ "Unable to create DaaP custom metadata structure." ∈
      (createCmIfNotExists env).logs
  ∧ validatePrerequisites env p a = .ok false := by
  refine ⟨?_, ?_, ?_⟩ <;>
    simp [createCmIfNotExists, innerTryBody, validatePrerequisites, h1, h2,
      Exc.isNotFound, Exc.isConflict, Exc.isAtlan]

/-- Witness for claim C6 at a concrete environment. -/
theorem creation_failure_reports_none_witness :
    validatePrerequisites
      ⟨.error .notFound, .error .otherAtlan, .ok (), .ok "cmid", .ok "cmid"⟩
      true true = .ok false :=
  (creation_failure_reports_none
    ⟨.error .notFound, .error .otherAtlan, .ok (), .ok "cmid", .ok "cmid"⟩
    true true rfl rfl).2.2

/-- Claim C8: when the first name lookup succeeds, both provisioning
operations return immediately with zero `create_typedef` calls —
`_create_cm_if_not_exists` returns the found identifier, and
`create_custom_metadata_structure` skips creation entirely. -/
theorem fast_path_no_create (env : CMEnv) (denv : DeployEnv)
    (id did : String) (h : env.lookup1 = .ok id)
    (hd : denv.lookup = .ok did) :
    createCmIfNotExists env = ⟨.ok (some id), 0, []⟩
  ∧ createCustomMetadataStructure denv = ⟨.ok (), 0⟩ := by
  constructor
  · simp [createCmIfNotExists, h]
  · simp [createCustomMetadataStructure, hd]

/-- Witness for claim C8 at concrete environments. -/
theorem fast_path_no_create_witness :
    createCmIfNotExists ⟨.ok "cmid", .ok (), .ok (), .ok "cmid", .ok "cmid"⟩
      = ⟨.ok (some "cmid"), 0, []⟩
  ∧ createCustomMetadataStructure ⟨.ok "qdid", .ok ()⟩ = ⟨.ok (), 0⟩ :=
  fast_path_no_create ⟨.ok "cmid", .ok (), .ok (), .ok "cmid", .ok "cmid"⟩
    ⟨.ok "qdid", .ok ()⟩ "cmid" "qdid" rfl rfl

/-- The single change the enforcer proposes for a non-compliant VERIFIED
asset: a trimmed copy carrying only the DRAFT status and the enforcement
message. -/
def enforcedChange (a : Asset) : Asset :=
  { a.trim_to_required with
      certificateStatus := some .DRAFT,
      certificateStatusMessage := some ENFORCEMENT_MESSAGE }

/-- The single change the scorer proposes: a trimmed copy whose "DaaP"
custom metadata carries exactly the computed `Score`. -/
def scoredChange (env : ScorerEnv) (a : Asset) : Asset :=
  { a.trim_to_required with
      daapCM := [(CM_ATTR_DAAP_SCORE, LambdaScorer.computeScore env a)] }

/-- A VERIFIED asset with no owner and no description (scenario E1 of the
spec). -/
def E1 : Asset where
  typeName := "Table"
  name := "t1"
  qualifiedName := "default/db/sch/t1"
  hasDescription := false
  hasOwner := false
  hasLineage := true
  certificateStatus := some .VERIFIED
  certificateStatusMessage := none
  assignedTerms := []
  atlanTags := []
  seeAlso := []
  links := []
  assignedEntities := []
  readmeGuid := none
  daapCM := []
  starredBy := []
  starredDetailsList := []
  starredCount := 0

/-- A scorer environment in which no readme fetch returns a description. -/
def envNone : ScorerEnv := ⟨fun _ => none⟩

/-- Claim C4: a VERIFIED asset lacking a description, an owner or lineage
gets exactly one ChangeSet — DRAFT status plus the fixed enforcement
message on a trimmed copy, nothing else; a compliant VERIFIED asset, or a
non-VERIFIED asset, gets none. -/
theorem enforcer_demotes_exactly (a : Asset) :
    (a.certificateStatus = some .VERIFIED →
       ((a.hasDescription = false ∨ a.hasOwner = false ∨ a.hasLineage = false) →
          LambdaEnforcer.calculate_changes a = [enforcedChange a])
     ∧ (a.hasDescription = true ∧ a.hasOwner = true ∧ a.hasLineage = true →
          LambdaEnforcer.calculate_changes a = []))
  ∧ (a.certificateStatus ≠ some .VERIFIED →
       LambdaEnforcer.calculate_changes a = []) := by
  refine ⟨fun hv => ⟨fun hmiss => ?_, fun hall => ?_⟩, fun hnv => ?_⟩
  · rcases hmiss with h | h | h <;>
      simp [LambdaEnforcer.calculate_changes, enforcedChange, hv, h]
  · obtain ⟨h1, h2, h3⟩ := hall
    simp [LambdaEnforcer.calculate_changes, hv, h1, h2, h3]
  · simp [LambdaEnforcer.calculate_changes, hnv]

/-- Witness for claim C4 at the concrete asset E1. -/
theorem enforcer_demotes_exactly_witness :
    LambdaEnforcer.calculate_changes E1 = [enforcedChange E1] :=
  ((enforcer_demotes_exactly E1).1 rfl).1 (Or.inl rfl)

/-- Claim C7: every ChangeSet either policy emits is exactly the trimmed
copy of the asset plus the fields that policy changed — DRAFT certificate
and message for the enforcer, the "DaaP" Score attribute for the scorer —
and no other attribute of the original snapshot. -/
theorem changesets_minimal :
    (∀ (a c : Asset), c ∈ LambdaEnforcer.calculate_changes a →
       c = enforcedChange a)
  ∧ (∀ (env : ScorerEnv) (a c : Asset),
       c ∈ LambdaScorer.calculate_changes env a → c = scoredChange env a) := by
  constructor
  · intro a c hc
    unfold LambdaEnforcer.calculate_changes at hc
    split at hc
    · split at hc
      · simp at hc
        simpa [enforcedChange] using hc
      · simp at hc
    · simp at hc
  · intro env a c hc
    unfold LambdaScorer.calculate_changes at hc
    simp only at hc
    split at hc
    · split at hc
      · simp at hc
        simpa [scoredChange] using hc
      · simp at hc
    · simp at hc

/-- Witness for claim C7: the theorem applied to concrete membership
instances for both policies. -/
theorem changesets_minimal_witness :
    enforcedChange E1 = enforcedChange E1
  ∧ scoredChange envNone E1 = scoredChange envNone E1 :=
  ⟨changesets_minimal.1 E1 (enforcedChange E1) (by decide),
   changesets_minimal.2 envNone E1 (scoredChange envNone E1) (by decide)⟩

/-- A glossary category: not an `AtlasGlossaryTerm`, but its type name
starts with "AtlasGlossary". -/
def GCat : Asset where
  typeName := "AtlasGlossaryCategory"
  name := "cat"
  qualifiedName := "cat@glossary"
  hasDescription := true
  hasOwner := true
  hasLineage := false
  certificateStatus := none
  certificateStatusMessage := none
  assignedTerms := []
  atlanTags := []
  seeAlso := []
  links := []
  assignedEntities := []
  readmeGuid := none
  daapCM := []
  starredBy := []
  starredDetailsList := []
  starredCount := 0

/-- Claim C9: an asset that is not an `AtlasGlossaryTerm` but whose type
name starts with "AtlasGlossary" keeps the initial score `1.0`, and since
`1.0 >= 0` the scorer still emits a ChangeSet writing `Score = 1` whenever
the stored score differs — such assets are not excluded from scoring. -/
theorem glossary_not_excluded (env : ScorerEnv) (a : Asset)
    (h1 : strStartsWith a.typeName "AtlasGlossary" = true)
    (h2 : a.typeName ≠ "AtlasGlossaryTerm")
    (h3 : LambdaScorer.scoreOf a ≠ some 1) :
    LambdaScorer.computeScore env a = 1
  ∧ LambdaScorer.calculate_changes env a = [scoredChange env a] := by
  have hs : LambdaScorer.computeScore env a = 1 := by
    simp [LambdaScorer.computeScore, h1, h2]
  refine ⟨hs, ?_⟩
  have hrev : LambdaScorer.scoreOf
      ({ a.trim_to_required with
          daapCM := [(CM_ATTR_DAAP_SCORE, (1 : Int))] } :
        Asset) = some 1 := by
    simp [LambdaScorer.scoreOf, List.lookup]
  have hlist : LambdaScorer.calculate_changes env a =
      [{ a.trim_to_required with
          daapCM := [(CM_ATTR_DAAP_SCORE, (1 : Int))] }] := by
    unfold LambdaScorer.calculate_changes
    simp only [hs]
    simp [LambdaScorer.has_changes, hrev, h3]
  rw [hlist, scoredChange, hs]

/-- Witness for claim C9 at the concrete glossary category GCat. -/
theorem glossary_not_excluded_witness :
    LambdaScorer.computeScore envNone GCat = 1
  ∧ LambdaScorer.calculate_changes envNone GCat =
      [scoredChange envNone GCat] :=
  glossary_not_excluded envNone GCat (by decide) (by decide) (by decide)

/-- An asset whose stored "DaaP" score is 60 and for which the scorer
recomputes 60 (owner + assigned terms + tags, scenario E2 of the spec). -/
def E2 : Asset where
  typeName := "Table"
  name := "t2"
  qualifiedName := "default/db/sch/t2"
  hasDescription := false
  hasOwner := true
  hasLineage := false
  certificateStatus := none
  certificateStatusMessage := none
  assignedTerms := ["metric"]
  atlanTags := ["PII"]
  seeAlso := []
  links := []
  assignedEntities := []
  readmeGuid := none
  daapCM := [("Score", 60)]
  starredBy := []
  starredDetailsList := []
  starredCount := 0

/-- Claim C3: when the recomputed score equals the stored score under the
scorer comparison (`!=` with `-1` for an absent score),
`calculate_changes` returns the empty list, and the reconciliation outcome
is `no-op` with zero write-back calls. -/
theorem score_unchanged_noop (env : ScorerEnv) (a : Asset)
    (h : LambdaScorer.scoreOf a = some (LambdaScorer.computeScore env a)) :
    LambdaScorer.calculate_changes env a = []
  ∧ reconcileOutcome true (LambdaScorer.calculate_changes env a) =
      (Outcome.noop, 0) := by
  have hempty : LambdaScorer.calculate_changes env a = [] := by
    unfold LambdaScorer.calculate_changes
    have hrev : LambdaScorer.scoreOf
        ({ a.trim_to_required with
            daapCM := [(CM_ATTR_DAAP_SCORE, LambdaScorer.computeScore env a)] } :
          Asset) = some (LambdaScorer.computeScore env a) := by
      simp [LambdaScorer.scoreOf, List.lookup]
    simp [LambdaScorer.has_changes, hrev, h]
  exact ⟨hempty, by simp [hempty, reconcileOutcome]⟩

/-- Witness for claim C3 at the concrete asset E2 (stored score 60,
recomputed score 60). -/
theorem score_unchanged_noop_witness :
    LambdaScorer.calculate_changes envNone E2 = []
  ∧ reconcileOutcome true (LambdaScorer.calculate_changes envNone E2) =
      (Outcome.noop, 0) :=
  score_unchanged_noop envNone E2 (by decide)

/-- Any error escaping the inner try body is a catalog error when the
creation, badge and lookup oracles only fail with catalog errors. -/
theorem innerTryBody_error_atlan (env : CMEnv)
    (hct : catalogErr env.createTypedef = true)
    (hbu : catalogErr env.badgeUpsert = true)
    (hl2 : catalogErr env.lookup2 = true)
    (e : Exc) (he : (innerTryBody env).result = .error e) :
    e.isAtlan = true := by
  obtain ⟨l1, ct, bu, l2, l3⟩ := env
  cases ct with
  | error e1 => simp_all [innerTryBody, catalogErr]
  | ok u =>
    cases bu with
    | ok v =>
      cases l2 with
      | ok id => simp_all [innerTryBody, catalogErr]
      | error e2 => simp_all [innerTryBody, catalogErr]
    | error eb =>
      cases l2 <;> cases heb : eb.isAtlan <;>
        simp_all [innerTryBody, catalogErr]

/-- When every failure the environment produces is a catalog error,
`_create_cm_if_not_exists` returns (it never lets an exception escape). -/
theorem createCm_catalogOnly_ok (env : CMEnv)
    (h : env.catalogOnly = true) :
    ∃ r, (createCmIfNotExists env).result = .ok r := by
  have h' := h
  simp only [CMEnv.catalogOnly, Bool.and_eq_true] at h'
  obtain ⟨⟨⟨⟨h1, h2⟩, h3⟩, h4⟩, h5⟩ := h'
  cases hl1 : env.lookup1 with
  | ok id => exact ⟨some id, by simp [createCmIfNotExists, hl1]⟩
  | error e =>
    cases e with
    | nonAtlan => rw [hl1] at h1; simp [catalogErr, Exc.isAtlan] at h1
    | conflict =>
      exact ⟨none, by
        simp [createCmIfNotExists, hl1, Exc.isNotFound, Exc.isAtlan]⟩
    | otherAtlan =>
      exact ⟨none, by
        simp [createCmIfNotExists, hl1, Exc.isNotFound, Exc.isAtlan]⟩
    | notFound =>
      cases hi : (innerTryBody env).result with
      | ok r =>
        exact ⟨r, by simp [createCmIfNotExists, hl1, Exc.isNotFound, hi]⟩
      | error e2 =>
        have he2 : e2.isAtlan = true :=
          innerTryBody_error_atlan env h2 h3 h4 e2 hi
        cases he2c : e2.isConflict with
        | true =>
          cases hl3 : env.lookup3 with
          | ok id =>
            exact ⟨some id, by
              simp [createCmIfNotExists, hl1, Exc.isNotFound, hi, he2c, hl3]⟩
          | error e3 =>
            have he3 : e3.isAtlan = true := by
              rw [hl3] at h5; simpa [catalogErr] using h5
            exact ⟨none, by
              simp [createCmIfNotExists, hl1, Exc.isNotFound, hi, he2c, hl3,
                he3]⟩
        | false =>
          exact ⟨none, by
            simp [createCmIfNotExists, hl1, Exc.isNotFound, hi, he2c, he2]⟩

/-- Claim C2 (spec-modelled reconcile step): when every failure arising
during prerequisite validation is a catalog error, `validate_prerequisites`
returns a boolean and never lets an exception escape; whenever schema
provisioning yields no identifier or the payload or asset check fails, the
returned boolean is `false`; and a `false` prerequisite check maps to the
`no-op` outcome with zero write-back calls. -/
theorem validate_prerequisites_never_raises (env : CMEnv) (p a : Bool)
    (h : env.catalogOnly = true) :
    (∃ b, validatePrerequisites env p a = .ok b)
  ∧ (((createCmIfNotExists env).result = .ok none ∨ p = false ∨ a = false) →
       validatePrerequisites env p a = .ok false)
  ∧ (∀ cs : List Asset, reconcileOutcome false cs = (Outcome.noop, 0)) := by
  obtain ⟨r, hr⟩ := createCm_catalogOnly_ok env h
  refine ⟨⟨r.isSome && p && a, by simp [validatePrerequisites, hr]⟩, ?_, ?_⟩
  · rintro (hnone | hp | ha)
    · simp [validatePrerequisites, hnone]
    · simp [validatePrerequisites, hr, hp]
    · simp [validatePrerequisites, hr, ha]
  · intro cs
    simp [reconcileOutcome]

/-- Witness for claim C2 at a concrete environment whose creation fails
with a catalog error. -/
theorem validate_prerequisites_never_raises_witness :
    validatePrerequisites
      ⟨.error .otherAtlan, .ok (), .ok (), .ok "cmid", .ok "cmid"⟩
      true false = .ok false :=
  (validate_prerequisites_never_raises
    ⟨.error .otherAtlan, .ok (), .ok (), .ok "cmid", .ok "cmid"⟩
    true false (by decide)).2.1 (Or.inr (Or.inr rfl))

/-- Occurrences of a given username among starred-details entries. -/
def countUser (u : String) (l : List StarredDetails) : Nat :=
  l.countP (fun d => d.assetStarredBy == u)

/-- The loop of `star_asset` keeps the count equal to the length of the
details list when it starts that way. -/
theorem starLoop_count (now : Int) :
    ∀ (us : List String) (sb : List String) (cnt : Nat)
      (sdl : List StarredDetails), cnt = sdl.length →
      (starLoop now us sb cnt sdl).2.1 =
        (starLoop now us sb cnt sdl).2.2.length := by
  intro us
  induction us with
  | nil => intro sb cnt sdl hc; simpa [starLoop] using hc
  | cons u rest ih =>
    intro sb cnt sdl hc
    by_cases h : u ∈ sb
    · simpa [starLoop, h] using ih sb cnt sdl hc
    · simpa [starLoop, h] using
        ih (sb ++ [u]) (cnt + 1) (sdl ++ [⟨u, now⟩]) (by simp [hc])

/-- The loop of `star_asset` never appends an entry for a username already
present in the starred-by set. -/
theorem starLoop_no_new_entries (now : Int) (u : String) :
    ∀ (us : List String) (sb : List String) (cnt : Nat)
      (sdl : List StarredDetails), u ∈ sb →
      countUser u (starLoop now us sb cnt sdl).2.2 = countUser u sdl := by
  intro us
  induction us with
  | nil => intro sb cnt sdl hu; simp [starLoop]
  | cons v rest ih =>
    intro sb cnt sdl hu
    by_cases h : v ∈ sb
    · simpa [starLoop, h] using ih sb cnt sdl hu
    · have hvu : v ≠ u := fun hvu => h (hvu ▸ hu)
      have := ih (sb ++ [v]) (cnt + 1) (sdl ++ [⟨v, now⟩])
        (List.mem_append_left _ hu)
      simpa [starLoop, h, countUser, hvu] using this

/-- Every member of the starred-by set or of the username list is in the
starred-by set the loop returns. -/
theorem starLoop_mem (now : Int) (u : String) :
    ∀ (us : List String) (sb : List String) (cnt : Nat)
      (sdl : List StarredDetails), u ∈ sb ∨ u ∈ us →
      u ∈ (starLoop now us sb cnt sdl).1 := by
  intro us
  induction us with
  | nil =>
    intro sb cnt sdl hu
    simpa [starLoop] using hu.resolve_right (by simp)
  | cons v rest ih =>
    intro sb cnt sdl hu
    by_cases h : v ∈ sb
    · rw [starLoop]
      simp only [h, if_true]
      refine ih sb cnt sdl ?_
      rcases hu with hu | hu
      · exact Or.inl hu
      · rcases List.mem_cons.mp hu with rfl | hu
        · exact Or.inl h
        · exact Or.inr hu
    · rw [starLoop]
      simp only [h, if_false]
      refine ih (sb ++ [v]) (cnt + 1) (sdl ++ [⟨v, now⟩]) ?_
      rcases hu with hu | hu
      · exact Or.inl (List.mem_append_left _ hu)
      · rcases List.mem_cons.mp hu with rfl | hu
        · exact Or.inl (by simp)
        · exact Or.inr hu

/-- When every username is already starred, the loop changes nothing. -/
theorem starLoop_fixed (now : Int) :
    ∀ (us : List String) (sb : List String) (cnt : Nat)
      (sdl : List StarredDetails), (∀ u ∈ us, u ∈ sb) →
      starLoop now us sb cnt sdl = (sb, cnt, sdl) := by
  intro us
  induction us with
  | nil => intro sb cnt sdl _; simp [starLoop]
  | cons v rest ih =>
    intro sb cnt sdl hall
    have hv : v ∈ sb := hall v (by simp)
    rw [starLoop]
    simp only [hv, if_true]
    exact ih sb cnt sdl (fun u hu => hall u (List.mem_cons_of_mem _ hu))

/-- Claim C10: `star_asset` is duplicate-free and idempotent in content —
a username already in the starred-by set gains no additional
`StarredDetails` entry; the saved update always has `starred_count` equal
to the length of its details list; and re-running `star_asset` with the
same usernames saves an update whose starred-by set, details list and
count are unchanged. -/
theorem star_asset_idempotent (a : Asset) (us : List String)
    (t1 t2 : Int) (u : String) :
    (u ∈ a.starredBy →
       countUser u (star_asset a us t1).starredDetailsList =
         countUser u a.starredDetailsList)
  ∧ (star_asset a us t1).starredCount =
      (star_asset a us t1).starredDetailsList.length
  ∧ (star_asset (star_asset a us t1) us t2).starredBy =
      (star_asset a us t1).starredBy
  ∧ (star_asset (star_asset a us t1) us t2).starredDetailsList =
      (star_asset a us t1).starredDetailsList
  ∧ (star_asset (star_asset a us t1) us t2).starredCount =
      (star_asset a us t1).starredCount := by
  have hcount := starLoop_count t1 us a.starredBy
    a.starredDetailsList.length a.starredDetailsList rfl
  have hall : ∀ v ∈ us,
      v ∈ (starLoop t1 us a.starredBy a.starredDetailsList.length
        a.starredDetailsList).1 :=
    fun v hv => starLoop_mem t1 v us a.starredBy _ _ (Or.inr hv)
  have hfix := starLoop_fixed t2 us
    (starLoop t1 us a.starredBy a.starredDetailsList.length
      a.starredDetailsList).1
    (starLoop t1 us a.starredBy a.starredDetailsList.length
      a.starredDetailsList).2.2.length
    (starLoop t1 us a.starredBy a.starredDetailsList.length
      a.starredDetailsList).2.2 hall
  refine ⟨fun hu => ?_, ?_, ?_, ?_, ?_⟩
  · simpa [star_asset] using
      starLoop_no_new_entries t1 u us a.starredBy
        a.starredDetailsList.length a.starredDetailsList hu
  · simpa [star_asset] using hcount
  · simp [star_asset, hfix]
  · simp [star_asset, hfix]
  · simp [star_asset, hfix, hcount]

/-- Witness for claim C10 at a concrete asset and username list. -/
theorem star_asset_idempotent_witness :
    countUser "alice"
        (star_asset
          { typeName := "AtlasGlossaryTerm", name := "term",
            qualifiedName := "term@glossary", hasDescription := false,
            hasOwner := false, hasLineage := false,
            certificateStatus := none, certificateStatusMessage := none,
            assignedTerms := [], atlanTags := [], seeAlso := [], links := [],
            assignedEntities := [], readmeGuid := none, daapCM := [],
            starredBy := ["alice"],
            starredDetailsList := [⟨"alice", 5⟩], starredCount := 1 }
          ["alice", "bob"] 10).starredDetailsList =
      countUser "alice" [⟨"alice", 5⟩] :=
  (star_asset_idempotent
    { typeName := "AtlasGlossaryTerm", name := "term",
      qualifiedName := "term@glossary", hasDescription := false,
      hasOwner := false, hasLineage := false,
      certificateStatus := none, certificateStatusMessage := none,
      assignedTerms := [], atlanTags := [], seeAlso := [], links := [],
      assignedEntities := [], readmeGuid := none, daapCM := [],
      starredBy := ["alice"],
      starredDetailsList := [⟨"alice", 5⟩], starredCount := 1 }
    ["alice", "bob"] 10 11 "alice").1 (by decide)

end AtlanSamples
